import Mathlib

/-!
# Verification of `check_similar_pr.py`

A shallow embedding of the duplicate-pull-request detector in
`.github/scripts/check_similar_pr.py`, together with proofs of the
specification's claims about it.

Numeric similarity values (Python floats) are modelled with exact rational
arithmetic (`ℚ`); Python `set`s of strings are modelled with `Finset String`;
the GitHub/Slack HTTP collaborators are modelled as explicit function
parameters, with a raised `requests` exception modelled as `Except.error`.
-/

namespace CheckSimilarPR

/-- A pull-request object as returned by the GitHub API (`get_pr` or one entry
of the `/pulls` listing): the fields the script reads. `body` is nullable in
the API, hence `Option`. `updatedAt` is the ISO-8601 timestamp string, compared
lexicographically exactly as the Python code compares it. -/
structure ApiPR where
  number : Nat
  title : String
  body : Option String
  htmlUrl : String
  authorLogin : String
  state : String
  updatedAt : String
deriving DecidableEq, Repr

/-- The normalized record `main` builds for the current PR and for each
candidate: `{"number": .., "title": .., "body": pr.get("body") or "",
"files": .., "url": .., "author": ..}`. -/
structure PRRecord where
  number : Nat
  title : String
  body : String
  files : List String
  url : String
  author : String
deriving DecidableEq, Repr

/-- `main`'s record construction from an API object and a fetched file list:
`"body": pr.get("body") or ""` defaults a null body to the empty string. -/
def buildRecord (pr : ApiPR) (files : List String) : PRRecord :=
  { number := pr.number
    title := pr.title
    body := pr.body.getD ""
    files := files
    url := pr.htmlUrl
    author := pr.authorLogin }

/-- The character class `[a-z0-9_]` of the tokenizing regex. -/
def isTokenChar (c : Char) : Bool :=
  (('a' ≤ c && c ≤ 'z') || ('0' ≤ c && c ≤ '9') || c = '_')

/-- `re.findall(r"[a-z0-9_]+", text)`: the maximal runs of token characters,
in order. `cur` accumulates the current run in reverse. -/
def findTokens : List Char → List Char → List String
  | [], cur => if cur = [] then [] else [String.mk cur.reverse]
  | c :: cs, cur =>
    if isTokenChar c then
      findTokens cs (c :: cur)
    else if cur = [] then
      findTokens cs []
    else
      String.mk cur.reverse :: findTokens cs []

/-- `tokenize(text)`: lower-case the text (`str.lower`, modelled per character
as Python does on the ASCII range), extract maximal `[a-z0-9_]+` runs, return
the set of distinct tokens. -/
def tokenize (text : String) : Finset String :=
  (findTokens (text.toList.map Char.toLower) []).toFinset

/-- `jaccard(s1, s2)`: `0.0` when both sets are empty, otherwise
`|s1 ∩ s2| / |s1 ∪ s2|` (with the code's extra `if union else 0.0` guard). -/
def jaccard (s1 s2 : Finset String) : ℚ :=
  if s1 = ∅ ∧ s2 = ∅ then 0
  else
    let inter : ℕ := (s1 ∩ s2).card
    let union : ℕ := (s1 ∪ s2).card
    if union ≠ 0 then (inter : ℚ) / (union : ℚ) else 0

/-- `compute_similarity(current, candidate)`: file-overlap ratio relative to
the current PR's file set, Jaccard text similarity of title+body token sets,
and the weighted score `0.6 * file_overlap + 0.4 * text_sim`. -/
def compute_similarity (current candidate : PRRecord) : ℚ × ℚ × ℚ :=
  let cur_files := current.files.toFinset
  let cand_files := candidate.files.toFinset
  let file_overlap : ℚ :=
    if cur_files = ∅ then 0
    else ((cur_files ∩ cand_files).card : ℚ) / (cur_files.card : ℚ)
  let cur_tokens := tokenize (current.title ++ " " ++ current.body)
  let cand_tokens := tokenize (candidate.title ++ " " ++ candidate.body)
  let text_sim := jaccard cur_tokens cand_tokens
  let score := (6 / 10 : ℚ) * file_overlap + (4 / 10 : ℚ) * text_sim
  (score, file_overlap, text_sim)

/-- One entry of `main`'s `candidates` list: the tuple
`(score, file_overlap, text_sim, cand)`. -/
structure SimilarityResult where
  score : ℚ
  file_overlap : ℚ
  text_sim : ℚ
  cand : PRRecord
deriving DecidableEq, Repr

/-- The threshold gate applied in `main`'s loop:
`score >= 0.5 and file_overlap >= 0.4`. -/
def gatePasses (r : SimilarityResult) : Bool :=
  decide ((1 / 2 : ℚ) ≤ r.score) && decide ((2 / 5 : ℚ) ≤ r.file_overlap)

/-- The comparator realizing `candidates.sort(key=lambda x: x[0], reverse=True)`:
a stable sort putting higher scores first. -/
def scoreDescLe (a b : SimilarityResult) : Bool :=
  decide (b.score ≤ a.score)

/-- The selection step of `main` (spec's `select_top` with its default
parameters): gate on both thresholds, stable-sort descending by score,
truncate to the top 3. -/
def select_top (scored : List SimilarityResult) : List SimilarityResult :=
  ((scored.filter gatePasses).mergeSort scoreDescLe).take 3

/-- The candidate-scoring loop of `main`: skip the current PR itself, skip
states other than `"open"`/`"closed"`, fetch the candidate's files, build its
record, score it, and keep it only when it passes the threshold gate. The
GitHub file fetch is the explicit parameter `get_pr_files`. -/
def buildCandidates (current : PRRecord) (get_pr_files : Nat → List String) :
    List ApiPR → List SimilarityResult
  | [] => []
  | pr :: rest =>
    if pr.number = current.number then
      buildCandidates current get_pr_files rest
    else if pr.state ≠ "open" ∧ pr.state ≠ "closed" then
      buildCandidates current get_pr_files rest
    else
      let cand := buildRecord pr (get_pr_files pr.number)
      let sim := compute_similarity current cand
      if (1 / 2 : ℚ) ≤ sim.1 ∧ (2 / 5 : ℚ) ≤ sim.2.1 then
        ⟨sim.1, sim.2.1, sim.2.2, cand⟩ :: buildCandidates current get_pr_files rest
      else
        buildCandidates current get_pr_files rest

/-- Python's `f"{q:.2f}"` for the similarity ratios: two-decimal rendering
(modelled with round-half-up on the exact rational, which agrees with the
float formatting on all values the script prints except half-ulp ties). -/
def fmt2 (q : ℚ) : String :=
  let n : ℤ := ⌊q * 100 + 1 / 2⌋
  let frac : ℤ := n % 100
  toString (n / 100) ++ "." ++ (if frac < 10 then "0" else "") ++ toString frac

/-- One line of the Slack message per ranked result. -/
def resultLine (r : SimilarityResult) : String :=
  "- <" ++ r.cand.url ++ "|#" ++ toString r.cand.number ++ " - " ++ r.cand.title ++
    "> (author: " ++ r.cand.author ++ ", score=" ++ fmt2 r.score ++
    ", files=" ++ fmt2 r.file_overlap ++ ", text=" ++ fmt2 r.text_sim ++ ")"

/-- The message `main` assembles for the top results: the fixed header lines
followed by one line per result, joined with newlines. -/
def formatMessage (current : PRRecord) (top : List SimilarityResult) : String :=
  String.intercalate "\n"
    ([":mag: *Possible duplicate / overlapping PR detected*",
      "*Current PR:* <" ++ current.url ++ "|#" ++ toString current.number ++ " - " ++
        current.title ++ "> (author: " ++ current.author ++ ")",
      "",
      "*Similar PRs within last 7 days:*"] ++ top.map resultLine)

/-- What a run of `main` does after scoring: either print
`"No similar PRs found."` and return without touching Slack, or sort the
gated candidates, take the top 3, and hand the formatted message to
`notify_slack`. -/
inductive RunOutcome where
  | noSimilar : RunOutcome
  | notified (message : String) : RunOutcome
deriving DecidableEq, Repr

/-- The decision tail of `main`, starting from the normalized current record
and the recent-PR listing: build the gated candidate list; if it is empty,
report and stop; otherwise stable-sort descending by score, truncate to 3,
format, and notify. -/
def mainOutcome (current : PRRecord) (get_pr_files : Nat → List String)
    (recent : List ApiPR) : RunOutcome :=
  let candidates := buildCandidates current get_pr_files recent
  if candidates = [] then
    .noSimilar
  else
    .notified (formatMessage current ((candidates.mergeSort scoreDescLe).take 3))

/-- The inner `for pr in res` loop of `get_recent_prs` on one page: collect
entries until one has `updated_at < since` (Python compares the ISO strings
lexicographically, modelled as lexicographic order on their character lists),
at which point the whole function returns (`true` flags that early return). -/
def takeRecent (since : String) : List ApiPR → List ApiPR × Bool
  | [] => ([], false)
  | pr :: rest =>
    if pr.updatedAt.data < since.data then ([], true)
    else
      let (l, stopped) := takeRecent since rest
      (pr :: l, stopped)

/-- `get_recent_prs`, with the paginated GitHub listing modelled as the
sequence of chunks the API returns for pages 1, 2, …: an empty chunk breaks
the pagination loop, an entry older than `since` returns everything collected
so far, and otherwise the whole page is collected and the next page fetched. -/
def get_recent_prs (since : String) : List (List ApiPR) → List ApiPR
  | [] => []
  | page :: rest =>
    if page = [] then []
    else
      let (l, stopped) := takeRecent since page
      if stopped then l else l ++ get_recent_prs since rest

/-- A response to the Slack webhook POST. -/
structure HttpResponse where
  statusCode : Nat
  text : String
deriving DecidableEq, Repr

/-- `notify_slack(message)`. The webhook configuration is `Option String`
(`SLACK_WEBHOOK_URL` may be unset); the `requests.post` call is the parameter
`post`, whose `Except.error` case models a raised transport exception
(unreachable destination). The code prints and returns on a missing webhook,
propagates a transport exception (no `try`/`except`), and merely logs the
status of any response it does get. The `Except.ok` payload is the line the
function prints. -/
def notify_slack (slack_webhook : Option String)
    (post : String → String → Except String HttpResponse)
    (message : String) : Except String String :=
  match slack_webhook with
  | none => .ok "SLACK_WEBHOOK_URL not set, skipping Slack notification"
  | some url =>
    match post url message with
    | .error e => .error e
    | .ok resp =>
      .ok ("Slack response: " ++ toString resp.statusCode ++ " " ++ resp.text.take 200)

/-- Division with Python's raising semantics: `none` models a
`ZeroDivisionError`. -/
def divChecked (a b : ℚ) : Option ℚ :=
  if b = 0 then none else some (a / b)

/-- `jaccard` with every division site checked for a zero denominator. -/
def jaccardChecked (s1 s2 : Finset String) : Option ℚ :=
  if s1 = ∅ ∧ s2 = ∅ then some 0
  else if ((s1 ∪ s2).card : ℕ) ≠ 0 then
    divChecked ((s1 ∩ s2).card : ℚ) ((s1 ∪ s2).card : ℚ)
  else some 0

/-- `compute_similarity` with every division site checked for a zero
denominator: `none` models the function raising `ZeroDivisionError`. -/
def compute_similarityChecked (current candidate : PRRecord) : Option (ℚ × ℚ × ℚ) := do
  let cur_files := current.files.toFinset
  let cand_files := candidate.files.toFinset
  let file_overlap ←
    if cur_files = ∅ then some (0 : ℚ)
    else divChecked ((cur_files ∩ cand_files).card : ℚ) (cur_files.card : ℚ)
  let cur_tokens := tokenize (current.title ++ " " ++ current.body)
  let cand_tokens := tokenize (candidate.title ++ " " ++ candidate.body)
  let text_sim ← jaccardChecked cur_tokens cand_tokens
  some ((6 / 10 : ℚ) * file_overlap + (4 / 10 : ℚ) * text_sim, file_overlap, text_sim)

/-! ## Shared lemmas -/

theorem jaccard_nonneg (s1 s2 : Finset String) : 0 ≤ jaccard s1 s2 := by
  unfold jaccard
  simp only []
  split
  · exact le_refl 0
  · split
    · positivity
    · exact le_refl 0

theorem jaccard_le_one (s1 s2 : Finset String) : jaccard s1 s2 ≤ 1 := by
  unfold jaccard
  simp only []
  split
  · exact zero_le_one
  · split
    · rename_i hu
      have hu' : 0 < ((s1 ∪ s2).card : ℚ) := by
        have := Nat.pos_of_ne_zero hu
        exact_mod_cast this
      rw [div_le_one hu']
      exact_mod_cast Finset.card_le_card Finset.inter_subset_union
    · exact zero_le_one

theorem file_overlap_nonneg (c k : PRRecord) : 0 ≤ (compute_similarity c k).2.1 := by
  unfold compute_similarity
  simp only []
  split
  · exact le_refl 0
  · positivity

theorem file_overlap_le_one (c k : PRRecord) : (compute_similarity c k).2.1 ≤ 1 := by
  unfold compute_similarity
  simp only []
  split
  · exact zero_le_one
  · rename_i hne
    have hpos : 0 < (c.files.toFinset.card : ℚ) := by
      have : c.files.toFinset.Nonempty := Finset.nonempty_iff_ne_empty.mpr hne
      exact_mod_cast Finset.card_pos.mpr this
    rw [div_le_one hpos]
    exact_mod_cast Finset.card_le_card Finset.inter_subset_left

theorem text_sim_eq (c k : PRRecord) :
    (compute_similarity c k).2.2 =
      jaccard (tokenize (c.title ++ " " ++ c.body)) (tokenize (k.title ++ " " ++ k.body)) :=
  rfl

theorem score_eq (c k : PRRecord) :
    (compute_similarity c k).1 =
      (6 / 10 : ℚ) * (compute_similarity c k).2.1 + (4 / 10 : ℚ) * (compute_similarity c k).2.2 :=
  rfl

/-! ## C4: the four jaccard properties -/

/-- C4: for all token sets `s1, s2`, `jaccard s1 s2 ∈ [0,1]`; `jaccard s1 s1 = 1`
when `s1` is non-empty; `jaccard ∅ ∅ = 0`; and `jaccard` is symmetric. -/
theorem jaccard_spec (s1 s2 : Finset String) :
    0 ≤ jaccard s1 s2 ∧ jaccard s1 s2 ≤ 1 ∧
    (s1 ≠ ∅ → jaccard s1 s1 = 1) ∧
    jaccard (∅ : Finset String) (∅ : Finset String) = 0 ∧
    jaccard s1 s2 = jaccard s2 s1 := by
  refine ⟨jaccard_nonneg s1 s2, jaccard_le_one s1 s2, ?_, ?_, ?_⟩
  · intro h1
    have hc : s1.card ≠ 0 := by
      simp only [ne_eq, Finset.card_eq_zero]
      exact h1
    unfold jaccard
    rw [if_neg (by simp [h1])]
    simp only [Finset.inter_self, Finset.union_self]
    rw [if_pos hc]
    have hpos : 0 < (s1.card : ℚ) := by exact_mod_cast Nat.pos_of_ne_zero hc
    field_simp
  · unfold jaccard
    rw [if_pos ⟨rfl, rfl⟩]
  · by_cases h1 : s1 = ∅ <;> by_cases h2 : s2 = ∅ <;>
      simp [jaccard, h1, h2, Finset.inter_comm, Finset.union_comm]

/-- Witness for C4 at concrete token sets. -/
theorem jaccard_spec_witness :
    ({"fix", "login"} : Finset String) ≠ ∅ ∧
    jaccard {"fix", "login"} {"fix", "login"} = 1 ∧
    jaccard {"fix", "login"} {"login", "bug"} = jaccard {"login", "bug"} {"fix", "login"} :=
  ⟨by decide, (jaccard_spec {"fix", "login"} {"login", "bug"}).2.2.1 (by decide),
    (jaccard_spec {"fix", "login"} {"login", "bug"}).2.2.2.2⟩

/-! ## C1: bounds and the exact weighting of the score -/

/-- C1: for every pair of records, `compute_similarity` returns
`(score, file_overlap, text_similarity)` with `file_overlap` and
`text_similarity` in `[0,1]` and `score = 0.6 * file_overlap +
0.4 * text_similarity` exactly, hence `score ∈ [0,1]`. -/
theorem compute_similarity_bounds (c k : PRRecord) :
    0 ≤ (compute_similarity c k).2.1 ∧ (compute_similarity c k).2.1 ≤ 1 ∧
    0 ≤ (compute_similarity c k).2.2 ∧ (compute_similarity c k).2.2 ≤ 1 ∧
    (compute_similarity c k).1 =
      (6 / 10 : ℚ) * (compute_similarity c k).2.1 +
        (4 / 10 : ℚ) * (compute_similarity c k).2.2 ∧
    0 ≤ (compute_similarity c k).1 ∧ (compute_similarity c k).1 ≤ 1 := by
  have h1 := file_overlap_nonneg c k
  have h2 := file_overlap_le_one c k
  have h3 := jaccard_nonneg (tokenize (c.title ++ " " ++ c.body))
    (tokenize (k.title ++ " " ++ k.body))
  have h4 := jaccard_le_one (tokenize (c.title ++ " " ++ c.body))
    (tokenize (k.title ++ " " ++ k.body))
  rw [← text_sim_eq c k] at h3 h4
  refine ⟨h1, h2, h3, h4, score_eq c k, ?_, ?_⟩
  · rw [score_eq c k]; positivity
  · rw [score_eq c k]; linarith

/-! ## C2: the file-overlap formula -/

/-- C2: `file_overlap` is `0` when the current file set is empty, is otherwise
`|current ∩ candidate| / |current|` (asymmetric, relative to the current PR's
file count), and is `1` whenever the candidate's file set contains a non-empty
current file set. -/
theorem file_overlap_spec (c k : PRRecord) :
    (c.files.toFinset = ∅ → (compute_similarity c k).2.1 = 0) ∧
    (c.files.toFinset ≠ ∅ →
      (compute_similarity c k).2.1 =
        ((c.files.toFinset ∩ k.files.toFinset).card : ℚ) / (c.files.toFinset.card : ℚ)) ∧
    (c.files.toFinset ≠ ∅ → c.files.toFinset ⊆ k.files.toFinset →
      (compute_similarity c k).2.1 = 1) := by
  refine ⟨?_, ?_, ?_⟩
  · intro h
    unfold compute_similarity
    simp only []
    rw [if_pos h]
  · intro h
    unfold compute_similarity
    simp only []
    rw [if_neg h]
  · intro h hsub
    unfold compute_similarity
    simp only []
    rw [if_neg h, Finset.inter_eq_left.mpr hsub]
    have hpos : 0 < (c.files.toFinset.card : ℚ) := by
      exact_mod_cast Finset.card_pos.mpr (Finset.nonempty_iff_ne_empty.mpr h)
    field_simp

/-- Witness for C2: spec scenario 1, current files `{a.py, b.py}` against a
candidate touching `{a.py, b.py, c.py}` gives `file_overlap = 1`. -/
theorem file_overlap_spec_witness :
    (compute_similarity
      ⟨1, "Fix login bug", "", ["a.py", "b.py"], "u1", "alice"⟩
      ⟨2, "Fix login flow", "", ["a.py", "b.py", "c.py"], "u2", "bob"⟩).2.1 = 1 :=
  (file_overlap_spec
      ⟨1, "Fix login bug", "", ["a.py", "b.py"], "u1", "alice"⟩
      ⟨2, "Fix login flow", "", ["a.py", "b.py", "c.py"], "u2", "bob"⟩).2.2
    (by decide) (by decide)

/-! ## C9: compute_similarity is total -/

/-- C9: the exception-checked semantics of `compute_similarity` never reaches
a raising state (`none` would model `ZeroDivisionError`): for every pair of
records it returns `some` of what the total model returns, for any combination
of empty or non-empty file sets and text fields. -/
theorem compute_similarityChecked_total (c k : PRRecord) :
    compute_similarityChecked c k = some (compute_similarity c k) := by
  unfold compute_similarityChecked compute_similarity jaccardChecked jaccard divChecked
  by_cases hf : c.files.toFinset = ∅
  · simp only [hf, if_pos, if_true, Option.bind_eq_bind, Option.some_bind]
    by_cases hj : tokenize (c.title ++ " " ++ c.body) = ∅ ∧
        tokenize (k.title ++ " " ++ k.body) = ∅
    · simp [hj]
    · by_cases hu : ((tokenize (c.title ++ " " ++ c.body) ∪
          tokenize (k.title ++ " " ++ k.body)).card : ℕ) ≠ 0
      · have hu' : ¬ (((tokenize (c.title ++ " " ++ c.body) ∪
            tokenize (k.title ++ " " ++ k.body)).card : ℚ) = 0) := by
          exact_mod_cast hu
        simp [hj, hu, hu']
      · simp [hj, hu]
  · have hcard : c.files.toFinset.card ≠ 0 := by
      simp only [ne_eq, Finset.card_eq_zero]
      exact hf
    have hcard' : ¬ ((c.files.toFinset.card : ℚ) = 0) := by exact_mod_cast hcard
    simp only [hf, if_false, if_neg hf, if_neg hcard', Option.bind_eq_bind, Option.some_bind]
    by_cases hj : tokenize (c.title ++ " " ++ c.body) = ∅ ∧
        tokenize (k.title ++ " " ++ k.body) = ∅
    · simp [hj]
    · by_cases hu : ((tokenize (c.title ++ " " ++ c.body) ∪
          tokenize (k.title ++ " " ++ k.body)).card : ℕ) ≠ 0
      · have hu' : ¬ (((tokenize (c.title ++ " " ++ c.body) ∪
            tokenize (k.title ++ " " ++ k.body)).card : ℚ) = 0) := by
          exact_mod_cast hu
        simp [hj, hu, hu']
      · simp [hj, hu]

/-! ## C10: only the set of distinct file paths matters -/

/-- C10: `compute_similarity` depends on the file lists only through their
underlying sets of distinct paths: replacing either list by any permutation
or duplication with the same `toFinset` leaves the whole triple unchanged. -/
theorem compute_similarity_files_set (c k : PRRecord) (l1 l2 : List String)
    (h1 : l1.toFinset = c.files.toFinset) (h2 : l2.toFinset = k.files.toFinset) :
    compute_similarity { c with files := l1 } { k with files := l2 } =
      compute_similarity c k := by
  unfold compute_similarity
  simp only [h1, h2]

/-- Witness for C10: a permuted, duplicated file list (as page concatenation
could produce) yields the same triple as the original. -/
theorem compute_similarity_files_set_witness :
    compute_similarity
        ⟨1, "Fix login bug", "", ["b.py", "a.py", "b.py"], "u1", "alice"⟩
        ⟨2, "Add cache", "", ["c.py", "a.py", "c.py", "a.py"], "u2", "bob"⟩ =
      compute_similarity
        ⟨1, "Fix login bug", "", ["a.py", "b.py"], "u1", "alice"⟩
        ⟨2, "Add cache", "", ["a.py", "c.py"], "u2", "bob"⟩ :=
  compute_similarity_files_set
    ⟨1, "Fix login bug", "", ["a.py", "b.py"], "u1", "alice"⟩
    ⟨2, "Add cache", "", ["a.py", "c.py"], "u2", "bob"⟩
    ["b.py", "a.py", "b.py"] ["c.py", "a.py", "c.py", "a.py"]
    (by decide) (by decide)

/-! ## C3: the selection step -/

theorem scoreDescLe_trans : ∀ a b c : SimilarityResult,
    scoreDescLe a b → scoreDescLe b c → scoreDescLe a c := by
  intro a b c hab hbc
  simp only [scoreDescLe, decide_eq_true_eq] at *
  exact le_trans hbc hab

theorem scoreDescLe_total : ∀ a b : SimilarityResult,
    scoreDescLe a b || scoreDescLe b a := by
  intro a b
  simp only [scoreDescLe, Bool.or_eq_true, decide_eq_true_eq]
  exact le_total b.score a.score

/-- C3: the selection step returns at most 3 results, each passing both
thresholds, in non-increasing score order, and among equal-score results the
original encounter order is preserved: for each score value, the returned
results with that score form a sublist of the gated input's results with that
score. -/
theorem select_top_spec (scored : List SimilarityResult) :
    (select_top scored).length ≤ 3 ∧
    (∀ r ∈ select_top scored, (1 / 2 : ℚ) ≤ r.score ∧ (2 / 5 : ℚ) ≤ r.file_overlap) ∧
    (select_top scored).Pairwise (fun a b => b.score ≤ a.score) ∧
    (∀ s : ℚ, List.Sublist
      ((select_top scored).filter (fun r => decide (r.score = s)))
      ((scored.filter gatePasses).filter (fun r => decide (r.score = s)))) := by
  refine ⟨?_, ?_, ?_, ?_⟩
  · unfold select_top
    rw [List.length_take]
    exact min_le_left _ _
  · intro r hr
    unfold select_top at hr
    have h1 : r ∈ (scored.filter gatePasses).mergeSort scoreDescLe :=
      List.mem_of_mem_take hr
    have h2 : r ∈ scored.filter gatePasses := List.mem_mergeSort.mp h1
    have h3 := (List.mem_filter.mp h2).2
    simpa [gatePasses, Bool.and_eq_true, decide_eq_true_eq] using h3
  · unfold select_top
    have hs := List.sorted_mergeSort scoreDescLe_trans scoreDescLe_total
      (scored.filter gatePasses)
    have hp := hs.sublist (List.take_sublist 3 _)
    exact hp.imp (fun h => by simpa [scoreDescLe] using h)
  · intro s
    set g := scored.filter gatePasses with hg
    set p : SimilarityResult → Bool := fun r => decide (r.score = s) with hpdef
    have hall : ∀ a ∈ g.filter p, ∀ b ∈ g.filter p, scoreDescLe a b := by
      intro a ha b hb
      have ha' := (List.mem_filter.mp ha).2
      have hb' := (List.mem_filter.mp hb).2
      simp only [hpdef, decide_eq_true_eq] at ha' hb'
      simp only [scoreDescLe, decide_eq_true_eq, ha', hb']
      exact le_refl s
    have hpw : (g.filter p).Pairwise (fun a b => scoreDescLe a b) :=
      List.pairwise_of_forall_mem_list hall
    have hsub : List.Sublist (g.filter p) (g.mergeSort scoreDescLe) :=
      List.sublist_mergeSort scoreDescLe_trans scoreDescLe_total hpw (List.filter_sublist g)
    have hsub2 : List.Sublist ((g.filter p).filter p) ((g.mergeSort scoreDescLe).filter p) :=
      hsub.filter p
    have hff : (g.filter p).filter p = g.filter p := by
      rw [List.filter_filter]
      simp [Bool.and_self]
    rw [hff] at hsub2
    have hperm : List.Perm ((g.mergeSort scoreDescLe).filter p) (g.filter p) :=
      (List.mergeSort_perm g scoreDescLe).filter p
    have heq : g.filter p = (g.mergeSort scoreDescLe).filter p :=
      hsub2.eq_of_length hperm.length_eq.symm
    have hfinal : List.Sublist ((select_top scored).filter p)
        ((g.mergeSort scoreDescLe).filter p) := by
      unfold select_top
      exact (List.take_sublist 3 _).filter p
    rw [heq]
    exact hfinal

/-- The scored candidate used to witness C3. -/
def w3res : SimilarityResult :=
  ⟨1, 1, 1, ⟨2, "Fix login bug", "", ["a.py", "b.py"], "u2", "bob"⟩⟩

/-- Witness for C3 at a concrete one-element candidate list. -/
theorem select_top_spec_witness :
    w3res ∈ select_top [w3res] ∧
    (1 / 2 : ℚ) ≤ w3res.score ∧ (2 / 5 : ℚ) ≤ w3res.file_overlap ∧
    List.Sublist ((select_top [w3res]).filter (fun r => decide (r.score = 1)))
      (([w3res].filter gatePasses).filter (fun r => decide (r.score = 1))) := by
  have hgate : gatePasses w3res = true := by
    simp only [gatePasses, Bool.and_eq_true, decide_eq_true_eq, w3res]
    norm_num
  have hsel : select_top [w3res] = [w3res] := by
    simp [select_top, hgate]
  have hmem : w3res ∈ select_top [w3res] := by
    rw [hsel]; exact List.mem_singleton.mpr rfl
  obtain ⟨h1, h2⟩ := (select_top_spec [w3res]).2.1 w3res hmem
  exact ⟨hmem, h1, h2, (select_top_spec [w3res]).2.2.2 1⟩

/-! ## C6: no passing candidate means no notification -/

/-- The scored results `main`'s loop considers before its threshold gate: the
same traversal as `buildCandidates` with the gate removed. -/
def scoreAll (current : PRRecord) (get_pr_files : Nat → List String) :
    List ApiPR → List SimilarityResult
  | [] => []
  | pr :: rest =>
    if pr.number = current.number then
      scoreAll current get_pr_files rest
    else if pr.state ≠ "open" ∧ pr.state ≠ "closed" then
      scoreAll current get_pr_files rest
    else
      let cand := buildRecord pr (get_pr_files pr.number)
      let sim := compute_similarity current cand
      ⟨sim.1, sim.2.1, sim.2.2, cand⟩ :: scoreAll current get_pr_files rest

theorem buildCandidates_eq_filter (current : PRRecord) (get_pr_files : Nat → List String)
    (recent : List ApiPR) :
    buildCandidates current get_pr_files recent =
      (scoreAll current get_pr_files recent).filter gatePasses := by
  induction recent with
  | nil => rfl
  | cons pr rest ih =>
    unfold buildCandidates scoreAll
    by_cases h1 : pr.number = current.number
    · simp only [if_pos h1, ih]
    · by_cases h2 : pr.state ≠ "open" ∧ pr.state ≠ "closed"
      · simp only [if_neg h1, if_pos h2, ih]
      · simp only [if_neg h1, if_neg h2, List.filter_cons]
        by_cases h3 : (1 / 2 : ℚ) ≤ (compute_similarity current
              (buildRecord pr (get_pr_files pr.number))).1 ∧
            (2 / 5 : ℚ) ≤ (compute_similarity current
              (buildRecord pr (get_pr_files pr.number))).2.1
        · rw [if_pos h3, if_pos (by
            simp only [gatePasses, Bool.and_eq_true, decide_eq_true_eq]
            exact h3), ih]
        · rw [if_neg h3, if_neg (by
            simp only [gatePasses, Bool.and_eq_true, decide_eq_true_eq]
            exact h3), ih]

/-- C6: whenever no considered candidate passes the threshold gate, the run
ends in the `"No similar PRs found."` report: no message is formatted and
`notify_slack` is never invoked. -/
theorem no_pass_no_notify (current : PRRecord) (get_pr_files : Nat → List String)
    (recent : List ApiPR)
    (h : ∀ r ∈ scoreAll current get_pr_files recent, gatePasses r = false) :
    mainOutcome current get_pr_files recent = RunOutcome.noSimilar := by
  unfold mainOutcome
  rw [buildCandidates_eq_filter, List.filter_eq_nil_iff.mpr (by
    intro a ha
    simp [h a ha])]
  rfl

/-- The current record used to witness C6 and C7. -/
def w6cur : PRRecord := ⟨1, "alpha", "", [], "u1", "alice"⟩

/-- The recent listing entry used to witness C6: an open PR sharing no files
and no text with the current one, so its score is `0` and the gate fails. -/
def w6pr : ApiPR := ⟨7, "beta", none, "u7", "bob", "open", "2026-10-10T00:00:00Z"⟩

theorem w6_score : compute_similarity w6cur (buildRecord w6pr ["z.py"]) =
    (0, 0, 0) := by
  have hfo : (w6cur.files.toFinset : Finset String) = ∅ := by decide
  have hj : jaccard (tokenize (w6cur.title ++ " " ++ w6cur.body))
      (tokenize ((buildRecord w6pr ["z.py"]).title ++ " " ++
        (buildRecord w6pr ["z.py"]).body)) = 0 := by
    unfold jaccard
    rw [if_neg (by decide)]
    have hint : ((tokenize (w6cur.title ++ " " ++ w6cur.body) ∩
        tokenize ((buildRecord w6pr ["z.py"]).title ++ " " ++
          (buildRecord w6pr ["z.py"]).body)).card) = 0 := by decide
    simp only [hint]
    simp
  unfold compute_similarity
  simp only [hfo, if_pos, if_true, hj]
  norm_num

/-- Witness for C6: a run whose only candidate scores `0` fails the gate, and
the outcome is the no-similar report. -/
theorem no_pass_no_notify_witness :
    mainOutcome w6cur (fun _ => ["z.py"]) [w6pr] = RunOutcome.noSimilar := by
  apply no_pass_no_notify
  intro r hr
  have hs : scoreAll w6cur (fun _ => ["z.py"]) [w6pr] =
      [⟨0, 0, 0, buildRecord w6pr ["z.py"]⟩] := by
    unfold scoreAll
    rw [if_neg (by decide), if_neg (by decide)]
    simp only [w6_score]
    rfl
  rw [hs] at hr
  rw [List.mem_singleton.mp hr]
  simp only [gatePasses]
  rw [decide_eq_false (by norm_num), Bool.false_and]

/-! ## C7: the current PR is excluded before scoring -/

/-- C7: every scored result `main` constructs is about a candidate whose
number differs from the current PR's number. -/
theorem buildCandidates_no_self (current : PRRecord) (get_pr_files : Nat → List String)
    (recent : List ApiPR) :
    ∀ r ∈ buildCandidates current get_pr_files recent,
      r.cand.number ≠ current.number := by
  induction recent with
  | nil => intro r hr; cases hr
  | cons pr rest ih =>
    intro r hr
    unfold buildCandidates at hr
    by_cases h1 : pr.number = current.number
    · rw [if_pos h1] at hr
      exact ih r hr
    · rw [if_neg h1] at hr
      by_cases h2 : pr.state ≠ "open" ∧ pr.state ≠ "closed"
      · rw [if_pos h2] at hr
        exact ih r hr
      · rw [if_neg h2] at hr
        by_cases h3 : (1 / 2 : ℚ) ≤ (compute_similarity current
              (buildRecord pr (get_pr_files pr.number))).1 ∧
            (2 / 5 : ℚ) ≤ (compute_similarity current
              (buildRecord pr (get_pr_files pr.number))).2.1
        · rw [if_pos h3] at hr
          rcases List.mem_cons.mp hr with h | h
          · rw [h]
            exact h1
          · exact ih r h
        · rw [if_neg h3] at hr
          exact ih r hr

/-! ## C5: what get_recent_prs actually returns -/

theorem takeRecent_eq (since : String) (l : List ApiPR) :
    takeRecent since l =
      (l.takeWhile (fun pr => !decide (pr.updatedAt.data < since.data)),
       !(l.all (fun pr => !decide (pr.updatedAt.data < since.data)))) := by
  induction l with
  | nil => rfl
  | cons pr rest ih =>
    unfold takeRecent
    by_cases h : pr.updatedAt.data < since.data
    · rw [if_pos h, List.takeWhile_cons, List.all_cons, decide_eq_true h]
      simp only [Bool.not_true, Bool.false_eq_true, if_false, Bool.false_and, Bool.not_false]
    · rw [if_neg h, ih, List.takeWhile_cons, List.all_cons, decide_eq_false h]
      simp only [Bool.not_false, if_true, Bool.true_and]

theorem takeWhile_append_of_all_eq_false {α : Type} (p : α → Bool) (l l' : List α)
    (h : l.all p = false) : (l ++ l').takeWhile p = l.takeWhile p := by
  induction l with
  | nil => simp at h
  | cons a rest ih =>
    simp only [List.all_cons, Bool.and_eq_false_iff] at h
    rcases h with h | h
    · simp [List.takeWhile_cons, h]
    · by_cases ha : p a
      · simp [List.takeWhile_cons, ha, ih h]
      · simp [List.takeWhile_cons, ha]

theorem takeWhile_append_of_all_eq_true {α : Type} (p : α → Bool) (l l' : List α)
    (h : l.all p = true) : (l ++ l').takeWhile p = l ++ l'.takeWhile p := by
  induction l with
  | nil => rfl
  | cons a rest ih =>
    simp only [List.all_cons, Bool.and_eq_true] at h
    simp [List.takeWhile_cons, h.1, ih h.2]

theorem takeWhile_eq_self_of_all {α : Type} (p : α → Bool) (l : List α)
    (h : l.all p = true) : l.takeWhile p = l := by
  induction l with
  | nil => rfl
  | cons a rest ih =>
    simp only [List.all_cons, Bool.and_eq_true] at h
    simp [List.takeWhile_cons, h.1, ih h.2]

/-- C5 amended: on a paginated listing whose chunks are all non-empty,
`get_recent_prs` returns the longest prefix of the concatenated listing whose
entries all have `updated_at ≥ since`: the scan stops for good at the first
entry older than the cutoff, so an in-window entry that appears after an
out-of-window entry (in the same page or later) is skipped. -/
theorem get_recent_prs_eq_takeWhile (since : String) (pages : List (List ApiPR))
    (h : ∀ p ∈ pages, p ≠ []) :
    get_recent_prs since pages =
      pages.flatten.takeWhile (fun pr => !decide (pr.updatedAt.data < since.data)) := by
  induction pages with
  | nil => rfl
  | cons page rest ih =>
    have hpage : page ≠ [] := h page (List.mem_cons_self page rest)
    unfold get_recent_prs
    rw [if_neg hpage, takeRecent_eq]
    simp only [List.flatten_cons]
    by_cases hall : page.all (fun pr => !decide (pr.updatedAt.data < since.data)) = true
    · rw [hall]
      simp only [Bool.not_true, Bool.false_eq_true, if_false,
        takeWhile_append_of_all_eq_true _ _ _ hall,
        takeWhile_eq_self_of_all _ _ hall]
      rw [ih (fun p hp => h p (List.mem_cons_of_mem page hp))]
    · rw [Bool.eq_false_iff.mpr hall]
      simp only [Bool.not_false, if_true]
      rw [takeWhile_append_of_all_eq_false _ _ _ (Bool.eq_false_iff.mpr hall)]

/-- The out-of-window listing entry of the C5 counterexample. -/
def w5old : ApiPR := ⟨3, "old", none, "u3", "carol", "open", "2026-10-01T00:00:00Z"⟩

/-- The in-window listing entry of the C5 counterexample, appearing after the
out-of-window one in the same page. -/
def w5new : ApiPR := ⟨4, "new", none, "u4", "dave", "open", "2026-10-10T00:00:00Z"⟩

/-- The cutoff of the C5 counterexample. -/
def w5cutoff : String := "2026-10-05T00:00:00Z"

/-- C5 counterexample: `w5new` is within the lookback window and is present in
the already-fetched page, yet `get_recent_prs` returns nothing at all — the
early exit is not an optimization-only: in-window entries after an
out-of-window entry in the same page are silently skipped. -/
theorem get_recent_prs_counterexample :
    ¬ (w5new.updatedAt.data < w5cutoff.data) ∧
    w5new ∈ [[w5old, w5new]].flatten ∧
    get_recent_prs w5cutoff [[w5old, w5new]] = [] := by
  refine ⟨by decide, by decide, by decide⟩

/-- Witness for the amended C5 theorem at a concrete two-page listing. -/
theorem get_recent_prs_eq_takeWhile_witness :
    (∀ p ∈ [[w5new], [w5old]], p ≠ []) ∧
    get_recent_prs w5cutoff [[w5new], [w5old]] =
      ([[w5new], [w5old]] : List (List ApiPR)).flatten.takeWhile
        (fun pr => !decide (pr.updatedAt.data < w5cutoff.data)) :=
  ⟨by decide, get_recent_prs_eq_takeWhile w5cutoff [[w5new], [w5old]] (by decide)⟩

/-! ## C8: which notification failures are recovered -/

/-- C8 counterexample: when the destination is unreachable, `requests.post`
raises and `notify_slack` has no handler, so the exception propagates and the
run fails — delivery failure of this kind is not recovered locally. -/
theorem notify_slack_counterexample :
    notify_slack (some "https://hooks.slack.example/T000/B000")
      (fun _ _ => Except.error "requests.exceptions.ConnectionError")
      "msg" = Except.error "requests.exceptions.ConnectionError" :=
  rfl

/-- C8 amended: a delivered response is always recovered locally — whatever
its status code (non-2xx included), `notify_slack` only logs it and returns
normally — and a missing webhook configuration is recovered as a logged skip;
but a transport-level exception (unreachable destination) propagates and
fails the run. -/
theorem notify_slack_recovery (post : String → String → Except String HttpResponse)
    (url message : String) (resp : HttpResponse)
    (h : post url message = Except.ok resp) :
    notify_slack (some url) post message =
      Except.ok ("Slack response: " ++ toString resp.statusCode ++ " " ++
        resp.text.take 200) ∧
    notify_slack none post message =
      Except.ok "SLACK_WEBHOOK_URL not set, skipping Slack notification" ∧
    (∀ e, post url message = Except.error e →
      notify_slack (some url) post message = Except.error e) := by
  have hsome : notify_slack (some url) post message =
      match post url message with
      | Except.error e => Except.error e
      | Except.ok resp =>
        Except.ok ("Slack response: " ++ toString resp.statusCode ++ " " ++
          resp.text.take 200) := rfl
  refine ⟨?_, rfl, ?_⟩
  · rw [hsome, h]
  · intro e he
    rw [hsome, he]

/-- Witness for the amended C8 theorem: a concrete non-2xx (500) response is
logged, not escalated. -/
theorem notify_slack_recovery_witness :
    notify_slack (some "https://hooks.slack.example/T000/B000")
      (fun _ _ => Except.ok ⟨500, "internal error"⟩) "msg" =
      Except.ok ("Slack response: " ++ toString (500 : Nat) ++ " " ++
        ("internal error" : String).take 200) ∧
    notify_slack none (fun _ _ => Except.ok (⟨500, "internal error"⟩ : HttpResponse)) "msg" =
      Except.ok "SLACK_WEBHOOK_URL not set, skipping Slack notification" :=
  ⟨(notify_slack_recovery (fun _ _ => Except.ok ⟨500, "internal error"⟩)
      "https://hooks.slack.example/T000/B000" "msg" ⟨500, "internal error"⟩ rfl).1,
   (notify_slack_recovery (fun _ _ => Except.ok (⟨500, "internal error"⟩ : HttpResponse))
      "https://hooks.slack.example/T000/B000" "msg" ⟨500, "internal error"⟩ rfl).2.1⟩

/-- The current record used to witness C7. -/
def w7cur : PRRecord := ⟨1, "Fix login bug", "", ["a.py", "b.py"], "u1", "alice"⟩

/-- The recent listing entry used to witness C7: a different PR with the same
title and files, so it passes the gate and a result is constructed. -/
def w7pr : ApiPR := ⟨2, "Fix login bug", none, "u2", "bob", "open", "2026-10-09T00:00:00Z"⟩

theorem w7_sim : compute_similarity w7cur (buildRecord w7pr ["a.py", "b.py"]) = (1, 1, 1) := by
  have h1 : (w7cur.files.toFinset ∩
      (buildRecord w7pr ["a.py", "b.py"]).files.toFinset).card = 2 := by decide
  have h2 : w7cur.files.toFinset.card = 2 := by decide
  have h3 : ¬ (w7cur.files.toFinset = ∅) := by decide
  have h4 : tokenize (w7cur.title ++ " " ++ w7cur.body) =
      tokenize ((buildRecord w7pr ["a.py", "b.py"]).title ++ " " ++
        (buildRecord w7pr ["a.py", "b.py"]).body) := by decide
  have h5 : tokenize (w7cur.title ++ " " ++ w7cur.body) ≠ ∅ := by decide
  have h6 : jaccard (tokenize (w7cur.title ++ " " ++ w7cur.body))
      (tokenize ((buildRecord w7pr ["a.py", "b.py"]).title ++ " " ++
        (buildRecord w7pr ["a.py", "b.py"]).body)) = 1 := by
    rw [← h4, jaccard]
    have hne : ¬ (tokenize (w7cur.title ++ " " ++ w7cur.body) = ∅ ∧
        tokenize (w7cur.title ++ " " ++ w7cur.body) = ∅) := by
      simp [h5]
    rw [if_neg hne]
    simp only [Finset.inter_self, Finset.union_self]
    have hc : (tokenize (w7cur.title ++ " " ++ w7cur.body)).card = 3 := by decide
    rw [hc]
    norm_num
  unfold compute_similarity
  simp only [h1, h2, if_neg h3, h6]
  norm_num

theorem w7_build : buildCandidates w7cur (fun _ => ["a.py", "b.py"]) [w7pr] =
    [⟨1, 1, 1, buildRecord w7pr ["a.py", "b.py"]⟩] := by
  unfold buildCandidates
  rw [if_neg (by decide), if_neg (by decide)]
  simp only [w7_sim]
  rw [if_pos (by norm_num)]
  rfl

/-- Witness for C7: in a concrete run that does construct a result, the
constructed result's candidate number differs from the current PR's number. -/
theorem buildCandidates_no_self_witness :
    (⟨1, 1, 1, buildRecord w7pr ["a.py", "b.py"]⟩ : SimilarityResult) ∈
      buildCandidates w7cur (fun _ => ["a.py", "b.py"]) [w7pr] ∧
    (buildRecord w7pr ["a.py", "b.py"]).number ≠ w7cur.number := by
  have hmem : (⟨1, 1, 1, buildRecord w7pr ["a.py", "b.py"]⟩ : SimilarityResult) ∈
      buildCandidates w7cur (fun _ => ["a.py", "b.py"]) [w7pr] := by
    rw [w7_build]
    exact List.mem_singleton.mpr rfl
  exact ⟨hmem, buildCandidates_no_self w7cur (fun _ => ["a.py", "b.py"]) [w7pr]
    ⟨1, 1, 1, buildRecord w7pr ["a.py", "b.py"]⟩ hmem⟩

end CheckSimilarPR
